import Mathlib

/-!
Verification of the LLDP / SNMP value-shaping layer of the p-net stack
(`src/common/pf_lldp.h` and the SNMP helper layer exercised by the unit
test in `test/test_snmp.cpp`).

The C implementation files (`pf_lldp.c`, `pf_snmp.c`) are not part of the
source snapshot; only the public header with its documented contracts and
the unit test are.  Every definition below whose doc comment starts with
`Modelled from the spec:` is therefore a shallow embedding of the missing
implementation, written from the natural-language specification and the
header contracts, and cross-checked against the concrete expectations of
the unit test where they exist.

Byte strings are `List Nat` with every element intended `< 256`; machine
integers are `Nat` with explicit `% 256` / `% 65536` where overflow
matters; C status returns (`0` success / `-1` no data) are `Int`.
-/

/-! ## Value Formatter: BITS bit-reversal (RFC 1906) -/

/-- Modelled from the spec: the per-octet bit reversal used by the BITS
encoder in the missing `pf_snmp.c`. Bit `i` of the input byte becomes bit
`7 - i` of the output byte. -/
def reverseByte (b : Nat) : Nat :=
  (b % 2) * 128 + (b / 2 % 2) * 64 + (b / 4 % 2) * 32 + (b / 8 % 2) * 16 +
    (b / 16 % 2) * 8 + (b / 32 % 2) * 4 + (b / 64 % 2) * 2 + (b / 128 % 2) * 1

/-- Modelled from the spec: the BITS encoder of the missing `pf_snmp.c`
for the 16-bit autonegotiation capability mask.  The mask is split into
its low byte (bits 0-7) and high byte (bits 8-15); each byte is
independently bit-reversed; output byte 0 is the reversed low byte and
output byte 1 the reversed high byte. -/
def bits_encode (m : Nat) : Nat × Nat :=
  (reverseByte (m % 256), reverseByte (m / 256 % 256))

/-- Modelled from the spec: the inverse of `bits_encode`, reading a BITS
byte pair back into a 16-bit capability mask (the reversal transform is
applied to each byte again and the bytes are reassembled). -/
def bits_decode (b0 b1 : Nat) : Nat :=
  reverseByte b0 + 256 * reverseByte b1

/-! ## Value Formatter: TruthValue (RFC 2579) -/

/-- Modelled from the spec: the TruthValue encoding of the missing
`pf_snmp.c`: boolean true maps to 1 and false to 2, never 0. -/
def truthvalue (b : Bool) : Nat :=
  if b then 1 else 2

/-! ## Value Formatter: management-address OCTET STRING (RFC 2578) -/

/-- LLDP-side management address: subtype plus raw address bytes.  The C
struct `pf_lldp_management_address_t` stores the bytes in a fixed array
with a separate length field; here `value` is the list of the `len`
meaningful bytes. -/
structure pf_lldp_management_address_t where
  subtype : Nat
  value : List Nat
deriving DecidableEq

/-- SNMP-side management address as produced by the formatter: subtype,
OCTET STRING bytes and their count, as in `pf_snmp_management_address_t`. -/
structure pf_snmp_management_address_t where
  subtype : Nat
  value : List Nat
  len : Nat
deriving DecidableEq

/-- Modelled from the spec: the OCTET STRING shaping performed by the
missing `pf_snmp.c` (tested by `SnmpTest.SnmpGetManagementAddress`): the
output is the address length followed by the raw address bytes, and the
subtype passes through unchanged. -/
def pf_snmp_encode_management_address
    (src : pf_lldp_management_address_t) : pf_snmp_management_address_t :=
  { subtype := src.subtype
    value := src.value.length :: src.value
    len := src.value.length + 1 }

/-! ## Link status and its SNMP shaping -/

/-- LLDP-side link status of a port, as in `pf_lldp_link_status_t`. -/
structure pf_lldp_link_status_t where
  is_autonegotiation_supported : Bool
  is_autonegotiation_enabled : Bool
  autonegotiation_advertised_capabilities : Nat
  operational_mau_type : Nat
deriving DecidableEq

/-- SNMP-side link status, as in `pf_snmp_link_status_t`: TruthValue
encoded booleans, BITS encoded capability byte pair, MAU type passed
through. -/
structure pf_snmp_link_status_t where
  auto_neg_supported : Nat
  auto_neg_enabled : Nat
  auto_neg_advertised_cap : Nat × Nat
  oper_mau_type : Nat
deriving DecidableEq

/-- Modelled from the spec: the link-status shaping of the missing
`pf_snmp.c` (tested by `SnmpTest.SnmpGetLinkStatus`). -/
def pf_snmp_encode_link_status (s : pf_lldp_link_status_t) : pf_snmp_link_status_t :=
  { auto_neg_supported := truthvalue s.is_autonegotiation_supported
    auto_neg_enabled := truthvalue s.is_autonegotiation_enabled
    auto_neg_advertised_cap := bits_encode s.autonegotiation_advertised_capabilities
    oper_mau_type := s.operational_mau_type }

/-! ## Byte-level facts about the reversal -/

lemma reverseByte_lt (b : Nat) (hb : b < 256) : reverseByte b < 256 := by
  unfold reverseByte
  omega

set_option maxRecDepth 4096 in
lemma reverseByte_testBit :
    ∀ b < 256, ∀ i < 8, (reverseByte b).testBit (7 - i) = b.testBit i := by
  decide

set_option maxRecDepth 4096 in
lemma reverseByte_reverseByte : ∀ b < 256, reverseByte (reverseByte b) = b := by
  decide

/-- C3: for every 16-bit capability mask the BITS encoder outputs exactly
two bytes, output byte 0 being the bit-reversal of the mask's low byte
and output byte 1 the bit-reversal of its high byte (bit `i` of an input
byte becomes bit `7 - i` of the output byte); in particular `0xF00F`
encodes to `(0xF0, 0x0F)` and the mask with bits 3, 5, 8 and 14 set
encodes to `(0x14, 0x82)`. -/
theorem bits_encode_reverses_each_byte (m : Nat) (hm : m < 65536) :
    (bits_encode m).1 < 256 ∧ (bits_encode m).2 < 256 ∧
    (∀ i, i < 8 → (bits_encode m).1.testBit (7 - i) = m.testBit i) ∧
    (∀ i, i < 8 → (bits_encode m).2.testBit (7 - i) = m.testBit (8 + i)) ∧
    bits_encode 0xF00F = (0xF0, 0x0F) ∧
    bits_encode (2 ^ 3 + 2 ^ 5 + 2 ^ 8 + 2 ^ 14) = (0x14, 0x82) := by
  refine ⟨reverseByte_lt _ (Nat.mod_lt _ (by norm_num)),
          reverseByte_lt _ (Nat.mod_lt _ (by norm_num)), ?_, ?_, by decide, by decide⟩
  · intro i hi
    have h := reverseByte_testBit (m % 256) (Nat.mod_lt _ (by norm_num)) i hi
    rw [bits_encode]
    rw [h]
    have h256 : (256 : Nat) = 2 ^ 8 := by norm_num
    rw [h256, Nat.testBit_mod_two_pow]
    simp [hi]
  · intro i hi
    have h := reverseByte_testBit (m / 256 % 256) (Nat.mod_lt _ (by norm_num)) i hi
    rw [bits_encode]
    rw [h]
    have h256 : (256 : Nat) = 2 ^ 8 := by norm_num
    rw [h256, Nat.testBit_mod_two_pow, ← Nat.shiftRight_eq_div_pow, Nat.testBit_shiftRight]
    simp [hi]

/-- Witness for C3: the hypothesis holds at `0xF00F` and the theorem
yields the concrete byte pair and a bit-level instance there. -/
theorem bits_encode_reverses_each_byte_witness :
    bits_encode 0xF00F = (0xF0, 0x0F) ∧
    (bits_encode 0xF00F).1.testBit 4 = (0xF00F : Nat).testBit 3 := by
  have h := bits_encode_reverses_each_byte 0xF00F (by norm_num)
  refine ⟨h.2.2.2.2.1, ?_⟩
  have h3 := h.2.2.1 3 (by norm_num)
  simpa using h3

/-- C7: the BITS bit-reversal transform is its own inverse: decoding the
encoded byte pair recovers the mask, hence encoding, decoding and
re-encoding yields the same byte pair as encoding once. -/
theorem bits_encode_decode_roundtrip (m : Nat) (hm : m < 65536) :
    bits_decode (bits_encode m).1 (bits_encode m).2 = m ∧
    bits_encode (bits_decode (bits_encode m).1 (bits_encode m).2) = bits_encode m := by
  have hlo : m % 256 < 256 := Nat.mod_lt _ (by norm_num)
  have hhi : m / 256 % 256 < 256 := Nat.mod_lt _ (by norm_num)
  have hdiv : m / 256 < 256 := Nat.div_lt_of_lt_mul (by omega)
  have hfix : m / 256 % 256 = m / 256 := Nat.mod_eq_of_lt hdiv
  have hdec : bits_decode (bits_encode m).1 (bits_encode m).2 = m := by
    show reverseByte (reverseByte (m % 256)) + 256 * reverseByte (reverseByte (m / 256 % 256)) = m
    rw [reverseByte_reverseByte (m % 256) hlo, reverseByte_reverseByte (m / 256 % 256) hhi,
        hfix, Nat.mod_add_div m 256]
  exact ⟨hdec, by rw [hdec]⟩

/-- Witness for C7: the round-trip at the concrete mask `0xF00F`. -/
theorem bits_encode_decode_roundtrip_witness :
    bits_decode (bits_encode 0xF00F).1 (bits_encode 0xF00F).2 = 0xF00F := by
  exact (bits_encode_decode_roundtrip 0xF00F (by norm_num)).1

/-- C4: the OCTET STRING formatter turns an address of length `L ≤ 31`
into output of length `L + 1` whose byte 0 is `L` and whose bytes
`1..L` are the original address bytes, with the subtype passed through
unchanged. -/
theorem snmp_management_address_octet_string (src : pf_lldp_management_address_t)
    (hlen : src.value.length ≤ 31) :
    (pf_snmp_encode_management_address src).subtype = src.subtype ∧
    (pf_snmp_encode_management_address src).len = src.value.length + 1 ∧
    (pf_snmp_encode_management_address src).value = src.value.length :: src.value ∧
    (pf_snmp_encode_management_address src).value.length = src.value.length + 1 := by
  refine ⟨rfl, rfl, rfl, ?_⟩
  simp [pf_snmp_encode_management_address]

/-- Witness for C4: the concrete scenario of the unit test — subtype 1,
raw bytes `[192, 168, 1, 100]`, length 4 formats to subtype 1, bytes
`[4, 192, 168, 1, 100]`, length 5. -/
theorem snmp_management_address_octet_string_witness :
    (pf_snmp_encode_management_address ⟨1, [192, 168, 1, 100]⟩).subtype = 1 ∧
    (pf_snmp_encode_management_address ⟨1, [192, 168, 1, 100]⟩).value =
      [4, 192, 168, 1, 100] ∧
    (pf_snmp_encode_management_address ⟨1, [192, 168, 1, 100]⟩).len = 5 := by
  have h := snmp_management_address_octet_string ⟨1, [192, 168, 1, 100]⟩ (by norm_num)
  exact ⟨h.1, h.2.2.1, h.2.1⟩

/-- C5: the TruthValue encoding maps true to 1 and false to 2, never 0,
with distinct encodings of true and false, and both the
autonegotiation-supported and the autonegotiation-enabled fields of the
shaped link status are exactly this encoding of their booleans. -/
theorem truthvalue_spec (b : Bool) (s : pf_lldp_link_status_t) :
    truthvalue true = 1 ∧ truthvalue false = 2 ∧
    (truthvalue b = 1 ∨ truthvalue b = 2) ∧ truthvalue b ≠ 0 ∧
    truthvalue true ≠ truthvalue false ∧
    (pf_snmp_encode_link_status s).auto_neg_supported =
      truthvalue s.is_autonegotiation_supported ∧
    (pf_snmp_encode_link_status s).auto_neg_enabled =
      truthvalue s.is_autonegotiation_enabled := by
  cases b <;> simp [truthvalue, pf_snmp_encode_link_status]

/-! ## Port Enumerator -/

/-- Port iterator state, as in `pf_port_iterator_t`: the next local port
number to hand out and the total number of physical ports `N`. -/
structure pf_port_iterator_t where
  next_port : Nat
  num_ports : Nat
deriving DecidableEq

/-- Modelled from the spec: `pf_lldp_init_port_iterator` of the missing
`pf_lldp.c` starts the enumeration of the local physical ports
`1 .. N`; the management port is not among them. -/
def pf_lldp_init_port_iterator (num_ports : Nat) : pf_port_iterator_t :=
  { next_port := 1, num_ports := num_ports }

/-- Modelled from the spec: `pf_lldp_get_next_port` of the missing
`pf_lldp.c` returns the next local port number, or the sentinel 0 once
the iterator is exhausted (header contract: "If no more ports are
available, 0 is returned"). -/
def pf_lldp_get_next_port (it : pf_port_iterator_t) : Nat × pf_port_iterator_t :=
  if it.next_port ≤ it.num_ports then
    (it.next_port, { it with next_port := it.next_port + 1 })
  else
    (0, it)

/-- Repeated calls to `pf_lldp_get_next_port`, collecting the returned
port numbers and the final iterator state. -/
def runPortIterator : pf_port_iterator_t → Nat → List Nat × pf_port_iterator_t
  | it, 0 => ([], it)
  | it, k + 1 =>
      let step := pf_lldp_get_next_port it
      let rest := runPortIterator step.2 k
      (step.1 :: rest.1, rest.2)

lemma runPortIterator_range (n : Nat) :
    ∀ k s, 1 ≤ s → s + k = n + 1 →
      runPortIterator ⟨s, n⟩ k = (List.range' s k, ⟨n + 1, n⟩) := by
  intro k
  induction k with
  | zero =>
      intro s hs hsum
      have : s = n + 1 := by omega
      simp [runPortIterator, this]
  | succ k ih =>
      intro s hs hsum
      have hle : s ≤ n := by omega
      have hstep : pf_lldp_get_next_port ⟨s, n⟩ = (s, ⟨s + 1, n⟩) := by
        simp [pf_lldp_get_next_port, hle]
      have hrec := ih (s + 1) (by omega) (by omega)
      simp [runPortIterator, hstep, hrec, List.range'_succ]

lemma runPortIterator_exhausted (n s : Nat) (h : n < s) :
    ∀ k, runPortIterator ⟨s, n⟩ k = (List.replicate k 0, ⟨s, n⟩) := by
  intro k
  induction k with
  | zero => simp [runPortIterator]
  | succ k ih =>
      have hstep : pf_lldp_get_next_port ⟨s, n⟩ = (0, ⟨s, n⟩) := by
        simp [pf_lldp_get_next_port]
        omega
      simp [runPortIterator, hstep, ih, List.replicate_succ]

/-- C8: starting from `pf_lldp_init_port_iterator`, `n` calls to
`pf_lldp_get_next_port` produce exactly the local port numbers
`1 .. n`, each exactly once (the list is `range' 1 n` and has no
duplicates, so the management port — which is not a number in `1 .. n`
— is never produced), and every further call on the exhausted iterator
returns the sentinel 0.  Restartability holds because re-running the
initialiser always yields the same starting state. -/
theorem port_iterator_enumeration (n k : Nat) :
    (runPortIterator (pf_lldp_init_port_iterator n) n).1 = List.range' 1 n ∧
    (∀ p, p ∈ (runPortIterator (pf_lldp_init_port_iterator n) n).1 → 1 ≤ p ∧ p ≤ n) ∧
    (runPortIterator (pf_lldp_init_port_iterator n) n).1.Nodup ∧
    (runPortIterator (runPortIterator (pf_lldp_init_port_iterator n) n).2 k).1 =
      List.replicate k 0 := by
  have hrun := runPortIterator_range n n 1 (by omega) (by omega)
  have hports : (runPortIterator (pf_lldp_init_port_iterator n) n).1 = List.range' 1 n := by
    simp [pf_lldp_init_port_iterator, hrun]
  have hstate : (runPortIterator (pf_lldp_init_port_iterator n) n).2 =
      (⟨n + 1, n⟩ : pf_port_iterator_t) := by
    simp [pf_lldp_init_port_iterator, hrun]
  refine ⟨hports, ?_, ?_, ?_⟩
  · intro p hp
    rw [hports] at hp
    have := List.mem_range'_1.mp hp
    omega
  · rw [hports]
    exact List.nodup_range' 1 n
  · rw [hstate]
    exact congrArg Prod.fst (runPortIterator_exhausted n (n + 1) (by omega) k)

/-! ## Peer State Store -/

/-- Chassis ID of a device, as in `pf_lldp_chassis_id_t`: subtype plus
raw identifier bytes. -/
structure pf_lldp_chassis_id_t where
  subtype : Nat
  value : List Nat
deriving DecidableEq

/-- Port ID of a port, as in `pf_lldp_port_id_t`: subtype plus raw
identifier bytes. -/
structure pf_lldp_port_id_t where
  subtype : Nat
  value : List Nat
deriving DecidableEq

/-- Modelled from the spec: internal per-port storage of the measured
signal delays of the missing `pf_lldp.c`.  The spec's data model lists
four unsigned 32-bit delay values (line propagation, local/remote TX,
local/remote RX); `none` records that a delay was not measured. -/
structure SignalDelayMeasurement where
  line_propagation_delay_ns : Option Nat
  tx_delay_local_ns : Option Nat
  rx_delay_local_ns : Option Nat
  rx_delay_remote_ns : Option Nat
deriving DecidableEq

/-- Measured signal delays as returned by the getters, as in
`pf_lldp_signal_delay_t`. -/
structure pf_lldp_signal_delay_t where
  line_propagation_delay_ns : Nat
  tx_delay_local_ns : Nat
  rx_delay_local_ns : Nat
  rx_delay_remote_ns : Nat
deriving DecidableEq

/-- Modelled from the spec: the delay getters report zero for any delay
that was not measured (header contract: "If a signal delay was not
measured, its value is zero"). -/
def renderSignalDelays (m : SignalDelayMeasurement) : pf_lldp_signal_delay_t :=
  { line_propagation_delay_ns := m.line_propagation_delay_ns.getD 0
    tx_delay_local_ns := m.tx_delay_local_ns.getD 0
    rx_delay_local_ns := m.rx_delay_local_ns.getD 0
    rx_delay_remote_ns := m.rx_delay_remote_ns.getD 0 }

/-- Modelled from the spec: the decoded fields of one PeerPortRecord —
everything the Frame Parser of the missing `pf_lldp.c` learns about the
directly attached peer of one local port. -/
structure PeerData where
  chassis_id : pf_lldp_chassis_id_t
  port_id : pf_lldp_port_id_t
  port_description : List Nat
  management_address : pf_lldp_management_address_t
  management_port_index : Nat
  signal_delays : SignalDelayMeasurement
  link_status : pf_lldp_link_status_t
deriving DecidableEq

/-- Peer data of a port on which nothing has been received yet. -/
def PeerData.empty : PeerData :=
  { chassis_id := ⟨0, []⟩
    port_id := ⟨0, []⟩
    port_description := []
    management_address := ⟨0, []⟩
    management_port_index := 0
    signal_delays := ⟨none, none, none, none⟩
    link_status := ⟨false, false, 0, 0⟩ }

/-- Modelled from the spec: the PeerPortRecord of one local port — the
decoded peer fields, the 10 ms tick at which the record last changed,
and the `valid` flag that is set once at least one structurally valid
frame has been received for the port. -/
structure PeerPortRecord where
  data : PeerData
  timestamp_10ms : Nat
  valid : Bool
deriving DecidableEq

/-- Record state of a port before any frame has been received. -/
def PeerPortRecord.initial : PeerPortRecord :=
  { data := PeerData.empty, timestamp_10ms := 0, valid := false }

/-! ## Peer getters (status `0` = success, `-1` = no data) -/

/-- Modelled from the spec: `pf_lldp_get_peer_timestamp` of the missing
`pf_lldp.c` — the time the record last changed, or `-1` when no info
from the remote device has been received. -/
def pf_lldp_get_peer_timestamp (rec : PeerPortRecord) : Int × Nat :=
  if rec.valid then (0, rec.timestamp_10ms) else (-1, 0)

/-- Modelled from the spec: `pf_lldp_get_peer_chassis_id` of the missing
`pf_lldp.c`. -/
def pf_lldp_get_peer_chassis_id (rec : PeerPortRecord) : Int × pf_lldp_chassis_id_t :=
  if rec.valid then (0, rec.data.chassis_id) else (-1, ⟨0, []⟩)

/-- Modelled from the spec: `pf_lldp_get_peer_port_id` of the missing
`pf_lldp.c`. -/
def pf_lldp_get_peer_port_id (rec : PeerPortRecord) : Int × pf_lldp_port_id_t :=
  if rec.valid then (0, rec.data.port_id) else (-1, ⟨0, []⟩)

/-- Modelled from the spec: `pf_lldp_get_peer_port_description` of the
missing `pf_lldp.c`. -/
def pf_lldp_get_peer_port_description (rec : PeerPortRecord) : Int × List Nat :=
  if rec.valid then (0, rec.data.port_description) else (-1, [])

/-- Modelled from the spec: `pf_lldp_get_peer_management_address` of the
missing `pf_lldp.c`. -/
def pf_lldp_get_peer_management_address (rec : PeerPortRecord) :
    Int × pf_lldp_management_address_t :=
  if rec.valid then (0, rec.data.management_address) else (-1, ⟨0, []⟩)

/-- Modelled from the spec: `pf_lldp_get_peer_management_port_index` of
the missing `pf_lldp.c`. -/
def pf_lldp_get_peer_management_port_index (rec : PeerPortRecord) : Int × Nat :=
  if rec.valid then (0, rec.data.management_port_index) else (-1, 0)

/-- Modelled from the spec: `pf_lldp_get_peer_station_name` of the
missing `pf_lldp.c`.  The station name of the peer is its chassis
identifier string (the stack transmits the station name as a locally
assigned chassis ID). -/
def pf_lldp_get_peer_station_name (rec : PeerPortRecord) : Int × List Nat :=
  if rec.valid then (0, rec.data.chassis_id.value) else (-1, [])

/-- Modelled from the spec: `pf_lldp_get_peer_signal_delays` of the
missing `pf_lldp.c`. -/
def pf_lldp_get_peer_signal_delays (rec : PeerPortRecord) :
    Int × pf_lldp_signal_delay_t :=
  if rec.valid then (0, renderSignalDelays rec.data.signal_delays)
  else (-1, ⟨0, 0, 0, 0⟩)

/-- Modelled from the spec: `pf_lldp_get_peer_link_status` of the missing
`pf_lldp.c`. -/
def pf_lldp_get_peer_link_status (rec : PeerPortRecord) : Int × pf_lldp_link_status_t :=
  if rec.valid then (0, rec.data.link_status) else (-1, ⟨false, false, 0, 0⟩)

/-- Modelled from the spec: `pf_snmp_get_peer_management_address` of the
missing `pf_snmp.c` — it first consults the Peer State Store and only on
success applies the OCTET STRING shaping, propagating the no-data status
unchanged (tested by `SnmpTest.SnmpGetPeerManagementAddress`). -/
def pf_snmp_get_peer_management_address (rec : PeerPortRecord) :
    Int × pf_snmp_management_address_t :=
  if (pf_lldp_get_peer_management_address rec).1 = 0 then
    (0, pf_snmp_encode_management_address (pf_lldp_get_peer_management_address rec).2)
  else
    ((pf_lldp_get_peer_management_address rec).1, ⟨0, [], 0⟩)

/-- Modelled from the spec: `pf_snmp_get_peer_link_status` of the missing
`pf_snmp.c` — no-data status propagated unchanged, formatting only on
success (tested by `SnmpTest.SnmpGetPeerLinkStatus`). -/
def pf_snmp_get_peer_link_status (rec : PeerPortRecord) : Int × pf_snmp_link_status_t :=
  if (pf_lldp_get_peer_link_status rec).1 = 0 then
    (0, pf_snmp_encode_link_status (pf_lldp_get_peer_link_status rec).2)
  else
    ((pf_lldp_get_peer_link_status rec).1, ⟨0, 0, (0, 0), 0⟩)

/-- C6: every peer-data getter returns the distinct no-data result `-1`
exactly when the addressed port's record is not valid (no structurally
valid frame received yet, or explicitly invalidated), and returns `0`
exactly on a valid record; the formatted SNMP peer getters propagate the
status of the underlying store getter unchanged. -/
theorem peer_getters_no_data (rec : PeerPortRecord) :
    ((pf_lldp_get_peer_timestamp rec).1 = -1 ↔ rec.valid = false) ∧
    ((pf_lldp_get_peer_timestamp rec).1 = 0 ↔ rec.valid = true) ∧
    ((pf_lldp_get_peer_chassis_id rec).1 = -1 ↔ rec.valid = false) ∧
    ((pf_lldp_get_peer_chassis_id rec).1 = 0 ↔ rec.valid = true) ∧
    ((pf_lldp_get_peer_port_id rec).1 = -1 ↔ rec.valid = false) ∧
    ((pf_lldp_get_peer_port_id rec).1 = 0 ↔ rec.valid = true) ∧
    ((pf_lldp_get_peer_port_description rec).1 = -1 ↔ rec.valid = false) ∧
    ((pf_lldp_get_peer_port_description rec).1 = 0 ↔ rec.valid = true) ∧
    ((pf_lldp_get_peer_management_address rec).1 = -1 ↔ rec.valid = false) ∧
    ((pf_lldp_get_peer_management_address rec).1 = 0 ↔ rec.valid = true) ∧
    ((pf_lldp_get_peer_management_port_index rec).1 = -1 ↔ rec.valid = false) ∧
    ((pf_lldp_get_peer_management_port_index rec).1 = 0 ↔ rec.valid = true) ∧
    ((pf_lldp_get_peer_station_name rec).1 = -1 ↔ rec.valid = false) ∧
    ((pf_lldp_get_peer_station_name rec).1 = 0 ↔ rec.valid = true) ∧
    ((pf_lldp_get_peer_signal_delays rec).1 = -1 ↔ rec.valid = false) ∧
    ((pf_lldp_get_peer_signal_delays rec).1 = 0 ↔ rec.valid = true) ∧
    ((pf_lldp_get_peer_link_status rec).1 = -1 ↔ rec.valid = false) ∧
    ((pf_lldp_get_peer_link_status rec).1 = 0 ↔ rec.valid = true) ∧
    (pf_snmp_get_peer_management_address rec).1 =
      (pf_lldp_get_peer_management_address rec).1 ∧
    (pf_snmp_get_peer_link_status rec).1 = (pf_lldp_get_peer_link_status rec).1 := by
  cases hv : rec.valid <;>
    simp [pf_lldp_get_peer_timestamp, pf_lldp_get_peer_chassis_id,
      pf_lldp_get_peer_port_id, pf_lldp_get_peer_port_description,
      pf_lldp_get_peer_management_address, pf_lldp_get_peer_management_port_index,
      pf_lldp_get_peer_station_name, pf_lldp_get_peer_signal_delays,
      pf_lldp_get_peer_link_status, pf_snmp_get_peer_management_address,
      pf_snmp_get_peer_link_status, hv]

/-! ## Local-port configuration and local getters -/

/-- Modelled from the spec: the LocalPortConfig of one physical port as
held in `pnet_lldp_port_cfg_t` / the per-port state of the missing
`pf_lldp.c`: configured port identifier and description, measured signal
delays and link status. -/
structure pnet_lldp_port_cfg_t where
  port_id : List Nat
  port_description : List Nat
  signal_delays : SignalDelayMeasurement
  link_status : pf_lldp_link_status_t
deriving DecidableEq

/-- Chassis ID subtype for MAC addresses (`PF_LLDP_SUBTYPE_MAC`). -/
def PF_LLDP_SUBTYPE_MAC : Nat := 4

/-- Chassis ID subtype for locally assigned names
(`PF_LLDP_SUBTYPE_LOCALLY_ASSIGNED`). -/
def PF_LLDP_SUBTYPE_LOCALLY_ASSIGNED : Nat := 7

/-- Modelled from the spec: the slice of the p-net stack instance
(`pnet_t`) this subsystem reads — the local port configurations indexed
by local port number `1 .. N` (position `p - 1` in the list) and the
per-port peer records. -/
structure pnet_t where
  ports : List pnet_lldp_port_cfg_t
  peer_records : List PeerPortRecord
deriving DecidableEq

/-- Modelled from the spec: `pf_lldp_get_port_config` of the missing
`pf_lldp.c` — looks up the configuration of local port `loc_port_num`
(1-based), `none` when the port number is out of range (the header's
"NULL if not found"). -/
def pf_lldp_get_port_config (net : pnet_t) (loc_port_num : Nat) :
    Option pnet_lldp_port_cfg_t :=
  net.ports.get? (loc_port_num - 1)

/-- Modelled from the spec: `pf_lldp_get_port_id` of the missing
`pf_lldp.c` — the locally assigned port identifier from the port
configuration. -/
def pf_lldp_get_port_id (net : pnet_t) (loc_port_num : Nat) :
    Option pf_lldp_port_id_t :=
  (pf_lldp_get_port_config net loc_port_num).map
    (fun c => ⟨PF_LLDP_SUBTYPE_LOCALLY_ASSIGNED, c.port_id⟩)

/-- Modelled from the spec: `pf_lldp_get_port_description` of the missing
`pf_lldp.c`. -/
def pf_lldp_get_port_description (net : pnet_t) (loc_port_num : Nat) :
    Option (List Nat) :=
  (pf_lldp_get_port_config net loc_port_num).map (fun c => c.port_description)

/-- Modelled from the spec: `pf_lldp_get_signal_delays` of the missing
`pf_lldp.c` — unmeasured delays are reported as zero. -/
def pf_lldp_get_signal_delays (net : pnet_t) (loc_port_num : Nat) :
    Option pf_lldp_signal_delay_t :=
  (pf_lldp_get_port_config net loc_port_num).map
    (fun c => renderSignalDelays c.signal_delays)

/-- Modelled from the spec: `pf_lldp_get_link_status` of the missing
`pf_lldp.c`. -/
def pf_lldp_get_link_status (net : pnet_t) (loc_port_num : Nat) :
    Option pf_lldp_link_status_t :=
  (pf_lldp_get_port_config net loc_port_num).map (fun c => c.link_status)

/-- C9: for every local port number in the valid range `1 .. N` every
local-port getter succeeds and returns a copy of the stored structure
(or a value derived from it); there is no failure outcome for in-range
local-port queries. -/
theorem local_getters_always_succeed (net : pnet_t) (p : Nat)
    (h1 : 1 ≤ p) (h2 : p ≤ net.ports.length) :
    ∃ c, pf_lldp_get_port_config net p = some c ∧
      pf_lldp_get_port_id net p =
        some ⟨PF_LLDP_SUBTYPE_LOCALLY_ASSIGNED, c.port_id⟩ ∧
      pf_lldp_get_port_description net p = some c.port_description ∧
      pf_lldp_get_signal_delays net p = some (renderSignalDelays c.signal_delays) ∧
      pf_lldp_get_link_status net p = some c.link_status := by
  have hidx : p - 1 < net.ports.length := by omega
  have hc : pf_lldp_get_port_config net p = some (net.ports.get ⟨p - 1, hidx⟩) := by
    simp [pf_lldp_get_port_config, List.get?_eq_get hidx]
  exact ⟨net.ports.get ⟨p - 1, hidx⟩, hc,
    by simp [pf_lldp_get_port_id, hc],
    by simp [pf_lldp_get_port_description, hc],
    by simp [pf_lldp_get_signal_delays, hc],
    by simp [pf_lldp_get_link_status, hc]⟩

/-- A one-port stack instance used to instantiate the local-getter
theorems at a concrete input. -/
def demoNet : pnet_t :=
  { ports := [{ port_id := [112, 111, 114, 116, 45, 48, 48, 49]
                port_description := [80, 111, 114, 116, 32, 49]
                signal_delays := ⟨some 250, none, none, none⟩
                link_status := ⟨true, true, 0xF00F, 16⟩ }]
    peer_records := [PeerPortRecord.initial] }

/-- Witness for C9: on a concrete one-port stack instance, port 1 is in
range and every local getter succeeds. -/
theorem local_getters_always_succeed_witness :
    ∃ c, pf_lldp_get_port_config demoNet 1 = some c ∧
      pf_lldp_get_port_id demoNet 1 =
        some ⟨PF_LLDP_SUBTYPE_LOCALLY_ASSIGNED, c.port_id⟩ ∧
      pf_lldp_get_port_description demoNet 1 = some c.port_description ∧
      pf_lldp_get_signal_delays demoNet 1 = some (renderSignalDelays c.signal_delays) ∧
      pf_lldp_get_link_status demoNet 1 = some c.link_status := by
  exact local_getters_always_succeed demoNet 1 (by norm_num)
    (by simp [demoNet])

/-- C10: a signal delay that was not measured is reported as zero by the
delay getters: each field of `renderSignalDelays` is zero whenever its
measurement is absent, the local getter reports exactly the rendered
delays of the port configuration, and the peer getter on success reports
exactly the rendered delays of the peer record. -/
theorem signal_delays_zero_when_unmeasured (m : SignalDelayMeasurement)
    (net : pnet_t) (p : Nat) (c : pnet_lldp_port_cfg_t) (rec : PeerPortRecord)
    (hvalid : rec.valid = true)
    (hcfg : pf_lldp_get_port_config net p = some c) :
    (m.line_propagation_delay_ns = none →
      (renderSignalDelays m).line_propagation_delay_ns = 0) ∧
    (m.tx_delay_local_ns = none → (renderSignalDelays m).tx_delay_local_ns = 0) ∧
    (m.rx_delay_local_ns = none → (renderSignalDelays m).rx_delay_local_ns = 0) ∧
    (m.rx_delay_remote_ns = none → (renderSignalDelays m).rx_delay_remote_ns = 0) ∧
    pf_lldp_get_signal_delays net p = some (renderSignalDelays c.signal_delays) ∧
    pf_lldp_get_peer_signal_delays rec =
      (0, renderSignalDelays rec.data.signal_delays) := by
  refine ⟨?_, ?_, ?_, ?_, ?_, ?_⟩
  · intro h; simp [renderSignalDelays, h]
  · intro h; simp [renderSignalDelays, h]
  · intro h; simp [renderSignalDelays, h]
  · intro h; simp [renderSignalDelays, h]
  · simp [pf_lldp_get_signal_delays, hcfg]
  · simp [pf_lldp_get_peer_signal_delays, hvalid]

/-- Witness for C10: concrete instantiation on `demoNet` (whose only
port has three unmeasured delays) and a valid peer record with no
measured delays: all unmeasured fields render as zero. -/
theorem signal_delays_zero_when_unmeasured_witness :
    (renderSignalDelays ⟨some 250, none, none, none⟩).tx_delay_local_ns = 0 ∧
    (renderSignalDelays ⟨some 250, none, none, none⟩).rx_delay_local_ns = 0 ∧
    (renderSignalDelays ⟨some 250, none, none, none⟩).rx_delay_remote_ns = 0 ∧
    pf_lldp_get_peer_signal_delays ⟨PeerData.empty, 7, true⟩ =
      (0, renderSignalDelays PeerData.empty.signal_delays) := by
  have h := signal_delays_zero_when_unmeasured ⟨some 250, none, none, none⟩
    demoNet 1 ((demoNet.ports).get ⟨0, by simp [demoNet]⟩)
    ⟨PeerData.empty, 7, true⟩ rfl (by simp [pf_lldp_get_port_config, demoNet])
  exact ⟨h.2.1 rfl, h.2.2.1 rfl, h.2.2.2.1 rfl, h.2.2.2.2.2⟩

/-! ## Frame Parser (TLV walk of `pf_lldp_recv`) -/

/-- Big-endian 32-bit value from four bytes. -/
def be32 (a b c d : Nat) : Nat :=
  ((a * 256 + b) * 256 + c) * 256 + d

/-- Modelled from the spec: a delay field decoded from the wire; the
delay TLV transmits zero for a delay that was not measured. -/
def toMeasuredDelay (v : Nat) : Option Nat :=
  if v = 0 then none else some v

/-- Modelled from the spec: decoding of a Chassis ID or Port ID TLV value
(subtype byte followed by at least one and at most 255 identifier
bytes); `none` signals a length violating the type's rule. -/
def decodeIdValue (v : List Nat) : Option (Nat × List Nat) :=
  match v with
  | s :: rest => if 1 ≤ rest.length ∧ v.length ≤ 256 then some (s, rest) else none
  | [] => none

/-- Modelled from the spec: decoding of a Management Address TLV value
per IEEE 802.1AB ch. 9.5.9 — address string length (subtype plus at most
31 address bytes), address subtype, address bytes, interface numbering
subtype, 4-byte big-endian interface number, OID string length and OID.
`none` signals a structure violating the rules. -/
def decodeMgmtValue (v : List Nat) : Option (pf_lldp_management_address_t × Nat) :=
  match v with
  | aslen :: rest =>
      if 1 ≤ aslen ∧ aslen ≤ 32 ∧ aslen ≤ rest.length then
        match rest.drop aslen with
        | _ifsub :: n3 :: n2 :: n1 :: n0 :: oidlen :: oid =>
            if oidlen = oid.length then
              some (⟨rest.headD 0, (rest.drop 1).take (aslen - 1)⟩, be32 n3 n2 n1 n0)
            else none
        | _ => none
      else none
  | [] => none

/-- Modelled from the spec: decoding of an organizationally specific TLV
(type 127): 3-byte OUI and subtype before the payload.  The IEEE 802.3
MAC/PHY TLV (OUI 00-12-0F, subtype 1, fixed payload of 5 bytes) yields
the peer link status; the PROFINET delay TLV (OUI 00-0E-CF, subtype 1,
fixed payload of four 32-bit big-endian delays) yields the peer signal
delays; other organizationally specific TLVs are skipped.  `Except.error`
signals a length violating a recognized fixed-length rule (including a
TLV too short to hold OUI and subtype). -/
def decodeOrgValue (v : List Nat) (acc : PeerData) : Except Unit PeerData :=
  match v with
  | o1 :: o2 :: o3 :: sub :: data =>
      if o1 = 0x00 ∧ o2 = 0x12 ∧ o3 = 0x0F ∧ sub = 1 then
        match data with
        | [an, c1, c0, m1, m0] =>
            Except.ok { acc with link_status :=
              { is_autonegotiation_supported := an % 2 == 1
                is_autonegotiation_enabled := an / 2 % 2 == 1
                autonegotiation_advertised_capabilities := c1 * 256 + c0
                operational_mau_type := m1 * 256 + m0 } }
        | _ => Except.error ()
      else if o1 = 0x00 ∧ o2 = 0x0E ∧ o3 = 0xCF ∧ sub = 1 then
        match data with
        | [a3, a2, a1, a0, b3, b2, b1, b0, c3, c2, c1, c0, d3, d2, d1, d0] =>
            Except.ok { acc with signal_delays :=
              { line_propagation_delay_ns := toMeasuredDelay (be32 a3 a2 a1 a0)
                tx_delay_local_ns := toMeasuredDelay (be32 b3 b2 b1 b0)
                rx_delay_local_ns := toMeasuredDelay (be32 c3 c2 c1 c0)
                rx_delay_remote_ns := toMeasuredDelay (be32 d3 d2 d1 d0) } }
        | _ => Except.error ()
      else Except.ok acc
  | _ => Except.error ()

/-- Modelled from the spec: per-type field extraction of the Frame Parser
in the missing `pf_lldp.c`.  Recognized TLV types with a violated
fixed/variable-length rule yield `Except.error` (malformed frame);
unrecognized types are skipped without error. -/
def decodeTlv (t : Nat) (v : List Nat) (acc : PeerData) : Except Unit PeerData :=
  if t = 1 then
    match decodeIdValue v with
    | some p => Except.ok { acc with chassis_id := ⟨p.1, p.2⟩ }
    | none => Except.error ()
  else if t = 2 then
    match decodeIdValue v with
    | some p => Except.ok { acc with port_id := ⟨p.1, p.2⟩ }
    | none => Except.error ()
  else if t = 3 then
    if v.length = 2 then Except.ok acc else Except.error ()
  else if t = 4 then
    if v.length ≤ 255 then Except.ok { acc with port_description := v }
    else Except.error ()
  else if t = 8 then
    match decodeMgmtValue v with
    | some p => Except.ok { acc with
        management_address := p.1, management_port_index := p.2 }
    | none => Except.error ()
  else if t = 127 then
    decodeOrgValue v acc
  else
    Except.ok acc

/-- Modelled from the spec: the TLV walk of the Frame Parser.  Each TLV
is a 2-byte big-endian header (7-bit type, 9-bit length) followed by the
value; a declared length reading past the buffer, a truncated header, a
nonzero-length End TLV or a recognized type with a violated length rule
make the whole frame malformed (`Except.error`); the walk stops at the
first End-of-LLDPDU TLV (type 0, length 0) or at the end of the buffer.
The fuel argument (instantiated with the buffer length, which bounds the
number of TLVs) only makes the recursion structural. -/
def parseTlvs : Nat → List Nat → PeerData → Except Unit PeerData
  | _, [], acc => Except.ok acc
  | 0, _ :: _, _ => Except.error ()
  | _ + 1, [_], _ => Except.error ()
  | fuel + 1, b0 :: b1 :: rest, acc =>
      let t := b0 / 2
      let len := b0 % 2 * 256 + b1
      if rest.length < len then Except.error ()
      else if t = 0 then
        if len = 0 then Except.ok acc else Except.error ()
      else
        match decodeTlv t (rest.take len) acc with
        | Except.error e => Except.error e
        | Except.ok acc2 => parseTlvs fuel (rest.drop len) acc2

/-- Modelled from the spec: the initial recognition of `pf_lldp_recv` —
a frame is "ours" when it starts with a readable TLV header whose type
is Chassis ID (type 1), the mandatory first TLV of an LLDPDU; otherwise
the frame is not handled at all. -/
def recognizableStart : List Nat → Bool
  | b0 :: _ :: _ => b0 / 2 == 1
  | _ => false

/-- Result of `pf_lldp_recv`: the C return value (0 = frame not handled,
1 = frame handled and buffer freed), the addressed port's record after
the call, and whether the peer-change alarm condition was signalled to
the external alarm collaborator. -/
structure RecvOutput where
  handled : Nat
  record : PeerPortRecord
  alarm : Bool
deriving DecidableEq

/-- Modelled from the spec: `pf_lldp_recv` of the missing `pf_lldp.c`
for the addressed port's record.  A frame that does not start with a
recognizable LLDP TLV sequence is not handled (0, caller keeps the
buffer).  A recognized frame is always handled (1): if any TLV is
malformed the whole frame is discarded — record untouched, no alarm;
on a structurally valid frame the decoded fields (accumulated into a
working copy of the record) replace the record with `timestamp_10ms`
set to the current tick and `valid` set, unless the record was already
valid and every field is identical, in which case the record and its
timestamp are left unchanged.  The alarm condition is signalled exactly
when a valid record's contents were replaced. -/
def pf_lldp_recv (now : Nat) (rec : PeerPortRecord) (frame : List Nat)
    (offset : Nat) : RecvOutput :=
  let buf := frame.drop offset
  if recognizableStart buf then
    match parseTlvs buf.length buf rec.data with
    | Except.error _ => ⟨1, rec, false⟩
    | Except.ok d =>
        if rec.valid = true ∧ d = rec.data then ⟨1, rec, false⟩
        else ⟨1, ⟨d, now, true⟩, rec.valid && decide (d ≠ rec.data)⟩
  else ⟨0, rec, false⟩

/-- C1: on a structurally valid frame (recognized start and a TLV walk
that succeeds, decoding fields `d`), `pf_lldp_recv` reports the frame as
handled; it replaces the record with decoded data `d`, timestamp equal
to the current tick and `valid` true exactly when some decoded field
differs from the stored record or the record was not yet valid; when the
record was valid and every decoded field is identical, the record — its
timestamp included — is left completely unchanged. -/
theorem pf_lldp_recv_freshness (now : Nat) (rec : PeerPortRecord)
    (frame : List Nat) (offset : Nat) (d : PeerData)
    (hstart : recognizableStart (frame.drop offset) = true)
    (hparse : parseTlvs (frame.drop offset).length (frame.drop offset) rec.data =
      Except.ok d) :
    (pf_lldp_recv now rec frame offset).handled = 1 ∧
    (rec.valid = true → d = rec.data →
      (pf_lldp_recv now rec frame offset).record = rec) ∧
    (rec.valid = false ∨ d ≠ rec.data →
      (pf_lldp_recv now rec frame offset).record = ⟨d, now, true⟩) := by
  have hout : pf_lldp_recv now rec frame offset =
      if rec.valid = true ∧ d = rec.data then ⟨1, rec, false⟩
      else ⟨1, ⟨d, now, true⟩, rec.valid && decide (d ≠ rec.data)⟩ := by
    unfold pf_lldp_recv
    simp only [hstart, hparse, if_true]
  refine ⟨?_, ?_, ?_⟩
  · rw [hout]; split <;> rfl
  · intro hv hd
    rw [hout, if_pos ⟨hv, hd⟩]
  · intro hor
    have hcond : ¬(rec.valid = true ∧ d = rec.data) := by
      intro hc
      rcases hor with h | h
      · rw [hc.1] at h; cases h
      · exact h hc.2
    rw [hout, if_neg hcond]

/-- LLDP frame used to instantiate the parser theorems: a Chassis ID TLV
(type 1, length 2, subtype 7, value "A") followed by the End-of-LLDPDU
TLV. -/
def demoFrame : List Nat := [2, 2, 7, 65, 0, 0]

/-- Peer data decoded from `demoFrame` on a fresh record. -/
def demoData : PeerData := { PeerData.empty with chassis_id := ⟨7, [65]⟩ }

/-- Witness for C1: receiving `demoFrame` on a port with no valid record
is handled and installs the decoded data with the current tick 5 and the
`valid` flag set; re-receiving the byte-identical frame later (tick 9)
is still handled but leaves the record — timestamp included — unchanged. -/
theorem pf_lldp_recv_freshness_witness :
    (pf_lldp_recv 5 PeerPortRecord.initial demoFrame 0).handled = 1 ∧
    (pf_lldp_recv 5 PeerPortRecord.initial demoFrame 0).record =
      ⟨demoData, 5, true⟩ ∧
    (pf_lldp_recv 9 ⟨demoData, 5, true⟩ demoFrame 0).handled = 1 ∧
    (pf_lldp_recv 9 ⟨demoData, 5, true⟩ demoFrame 0).record =
      ⟨demoData, 5, true⟩ := by
  have h := pf_lldp_recv_freshness 5 PeerPortRecord.initial demoFrame 0 demoData
    (by rfl) (by rfl)
  have h2 := pf_lldp_recv_freshness 9 ⟨demoData, 5, true⟩ demoFrame 0 demoData
    (by rfl) (by rfl)
  exact ⟨h.1, h.2.2 (Or.inl rfl), h2.1, h2.2.1 rfl rfl⟩

/-- C2: `pf_lldp_recv` returns the not-handled result 0 exactly when the
frame does not start with a recognizable LLDP TLV sequence (and then
leaves the record untouched and raises no alarm), while on a recognized
frame whose TLV walk finds any malformed TLV — a declared length past
the buffer or a recognized type with a violated length rule — it returns
the handled result 1 with the addressed port's record (its `valid` flag
included) completely unmodified and no alarm raised. -/
theorem pf_lldp_recv_not_ours_and_malformed (now : Nat) (rec : PeerPortRecord)
    (frame : List Nat) (offset : Nat) :
    ((pf_lldp_recv now rec frame offset).handled = 0 ↔
      recognizableStart (frame.drop offset) = false) ∧
    ((pf_lldp_recv now rec frame offset).handled = 0 →
      pf_lldp_recv now rec frame offset = ⟨0, rec, false⟩) ∧
    (recognizableStart (frame.drop offset) = true →
      ∀ e, parseTlvs (frame.drop offset).length (frame.drop offset) rec.data =
        Except.error e →
      pf_lldp_recv now rec frame offset = ⟨1, rec, false⟩) := by
  have hmaster : pf_lldp_recv now rec frame offset =
      if recognizableStart (frame.drop offset) then
        match parseTlvs (frame.drop offset).length (frame.drop offset) rec.data with
        | Except.error _ => (⟨1, rec, false⟩ : RecvOutput)
        | Except.ok d =>
            if rec.valid = true ∧ d = rec.data then ⟨1, rec, false⟩
            else ⟨1, ⟨d, now, true⟩, rec.valid && decide (d ≠ rec.data)⟩
      else ⟨0, rec, false⟩ := rfl
  cases hs : recognizableStart (frame.drop offset) with
  | false =>
      rw [hmaster, hs, if_neg (by simp)]
      refine ⟨by simp, fun _ => rfl, ?_⟩
      intro htrue
      exact absurd htrue (by simp)
  | true =>
      rw [hmaster, hs, if_pos rfl]
      cases hp : parseTlvs (frame.drop offset).length (frame.drop offset) rec.data with
      | error e =>
          refine ⟨by simp, ?_, ?_⟩
          · intro h
            simp at h
          · intro _ e2 _
            rfl
      | ok d =>
          by_cases hc : rec.valid = true ∧ d = rec.data
          · refine ⟨by simp [hc], ?_, ?_⟩
            · intro h
              simp [hc] at h
            · intro _ e2 he2
              exact Except.noConfusion he2
          · refine ⟨by simp [hc], ?_, ?_⟩
            · intro h
              simp [hc] at h
            · intro _ e2 he2
              exact Except.noConfusion he2
